import Mathlib

/-!
# rp-mail: the mail action plugin

A shallow embedding of `main.go` (`Plugin.ExecuteTask`, `Plugin.Info`) and of
`plugin.go` (`EmailPlugin.Execute`, `EmailPlugin.Details`).

Conventions of the embedding.

* A Go `string` is a Lean `String`; `len` is the UTF-8 byte size.
* A Go `error` is `Option GoError`, where `none` is the nil error.
* Go `int` is 64 bits wide and is a Lean `Int`; wrap-around is written out
  with `%` where the library code relies on it.
* `executions.UpdateStep`, `smtp.SendMail` and `time.Now` are calls into the
  outside world. Their results are not computed here: they are supplied in a
  record `External`, one field per call site that can be reached, and every
  call that is made is written to a trace together with its result.
* `err.Error()` on a nil `error` is a run-time panic; `Execute` therefore
  ends in an `Outcome`, which is either a return or a panic.
-/

set_option autoImplicit false

namespace RpMail

/-! ## The parts of the Go standard library that the plugin calls -/

/-- A non-nil Go `error`; `Error` is the text its `Error()` method returns. -/
structure GoError where
  Error : String
  deriving DecidableEq, Repr

/-- The two sentinel errors of `strconv`. -/
inductive NumError where
  | ErrSyntax
  | ErrRange
  deriving DecidableEq, Repr

/-- Conversion `int64(n)`. -/
def int64 (n : Int) : Int := (n + 2 ^ 63) % 2 ^ 64 - 2 ^ 63

/-- The digit test of `strconv`: the byte lies in `'0'..'9'`. -/
def isDigit (c : Char) : Bool := decide ('0'.toNat ≤ c.toNat ∧ c.toNat ≤ '9'.toNat)

/-- The loop of `strconv.ParseUint(s, 10, 64)`: `cutoff = maxUint64/10 + 1`,
`maxVal = 1<<64 - 1`. A byte that is no decimal digit is a syntax error; an
overflow returns `maxVal` at once, without looking at the rest. -/
def ParseUint.loop : List Char → Nat → Nat × Option NumError
  | [], n => (n, none)
  | c :: cs, n =>
    if isDigit c then
      let d := c.toNat - '0'.toNat
      if n ≥ (2 ^ 64 - 1) / 10 + 1 then (2 ^ 64 - 1, some .ErrRange)
      else
        let n10 := (n * 10) % 2 ^ 64
        let n1 := (n10 + d) % 2 ^ 64
        if n1 < n10 ∨ n1 > 2 ^ 64 - 1 then (2 ^ 64 - 1, some .ErrRange)
        else ParseUint.loop cs n1
    else (0, some .ErrSyntax)

/-- The function `strconv.ParseUint(s, 10, 64)`. -/
def ParseUint (s : List Char) : Nat × Option NumError :=
  if s = [] then (0, some .ErrSyntax) else ParseUint.loop s 0

/-- The function `strconv.ParseInt(s, 10, 0)` on a 64-bit platform. -/
def ParseInt (s : List Char) : Int × Option NumError :=
  if s = [] then (0, some .ErrSyntax)
  else
    let neg : Bool := s.head? = some '-'
    let s1 := if s.head? = some '+' ∨ s.head? = some '-' then s.tail else s
    let r := ParseUint s1
    if r.2 = some .ErrSyntax then (0, some .ErrSyntax)
    else
      let cutoff : Nat := 2 ^ 63
      if !neg ∧ r.1 ≥ cutoff then (int64 (cutoff - 1 : Nat), some .ErrRange)
      else if neg ∧ r.1 > cutoff then (int64 (-(int64 cutoff)), some .ErrRange)
      else
        let n := int64 r.1
        (if neg then int64 (-n) else n, none)

/-- The fast path of `strconv.Atoi`: an optional sign, then decimal digits. -/
def Atoi.fast (s : List Char) : Int × Option NumError :=
  let s1 := if s.head? = some '-' ∨ s.head? = some '+' then s.tail else s
  if s1.length < 1 then (0, some .ErrSyntax)
  else if s1.all isDigit then
    let n : Int := s1.foldl (fun n ch => n * 10 + ((ch.toNat - '0'.toNat : Nat) : Int)) 0
    (if s.head? = some '-' then -n else n, none)
  else (0, some .ErrSyntax)

/-- The function `strconv.Atoi` on a 64-bit platform: the value and the
error. Strings of 1 to 18 bytes take the fast path, all others `ParseInt`. -/
def Atoi (s : String) : Int × Option NumError :=
  if 0 < s.utf8ByteSize ∧ s.utf8ByteSize < 19 then Atoi.fast s.data
  else ParseInt s.data

/-- The function `strconv.Itoa`: the decimal text of an `int`. -/
def Itoa (i : Int) : String :=
  if i < 0 then "-" ++ Nat.repr i.natAbs else Nat.repr i.natAbs

/-- The pieces of a byte sequence between the occurrences of `sep`. -/
def splitChars (sep : Char) : List Char → List (List Char)
  | [] => [[]]
  | c :: cs =>
    if c = sep then [] :: splitChars sep cs
    else
      match splitChars sep cs with
      | [] => [[c]]
      | piece :: pieces => (c :: piece) :: pieces

/-- The function `strings.Split(s, sep)` for a separator of one byte, which is
the only way the plugin calls it (`sep = ","`). -/
def Split (s : String) (sep : Char) : List String :=
  (splitChars sep s.data).map String.mk

/-- The function `strings.Join(elems, sep)`. -/
def Join : List String → String → String
  | [], _ => ""
  | [a], _ => a
  | a :: b :: rest, sep => a ++ sep ++ Join (b :: rest) sep

/-- The function `strings.Count(s, sep)` for a separator of one byte. -/
def Count (s : String) (sep : Char) : Nat := s.data.count sep

/-- The value `smtp.PlainAuth(identity, username, password, host)` returns:
the mechanism keeps its four arguments. -/
structure PlainAuth where
  identity : String
  username : String
  password : String
  host : String
  deriving DecidableEq, Repr

/-! ## Data shared by the two files -/

/-- An entry of `Action.Params`. The extraction loops read `Key` and `Value`;
the declarations of `Info` fill the other fields. -/
structure Params where
  Key : String
  Value : String := ""
  «Type» : String := ""
  Default : String := ""
  Required : Bool := false
  Description : String := ""
  deriving DecidableEq, Repr

/-- The six local variables that the extraction loop assigns. -/
structure Vars where
  «from» : String
  password : String
  «to» : List String
  smtpHost : String
  smtpPort : Int
  message : String
  deriving DecidableEq, Repr

/-- The values of the six variables before the loop. -/
def Vars.init : Vars :=
  { «from» := "", password := "", «to» := [], smtpHost := "", smtpPort := 0, message := "" }

/-- One iteration of the loop `for _, param := range ... Params`: six
independent `if param.Key == ...` statements, in source order. -/
def Vars.step (v : Vars) (param : Params) : Vars :=
  let v := if param.Key = "From" then { v with «from» := param.Value } else v
  let v := if param.Key = "Password" then { v with password := param.Value } else v
  let v := if param.Key = "To" then { v with «to» := Split param.Value ',' } else v
  let v := if param.Key = "SmtpHost" then { v with smtpHost := param.Value } else v
  let v := if param.Key = "SmtpPort" then { v with smtpPort := (Atoi param.Value).1 } else v
  let v := if param.Key = "Message" then { v with message := param.Value } else v
  v

/-- The whole extraction loop. -/
def extract (params : List Params) : Vars :=
  params.foldl Vars.step Vars.init

/-- The results of the calls into the outside world, one per call site that a
run can reach: `time.Now()` and `UpdateStep` for the first update, `SendMail`,
and `time.Now()` and `UpdateStep` for the last update (the "error" update or
the "success" update, of which a run makes at most one). -/
structure External where
  startedAt : Nat := 0
  running : Option GoError
  sendMail : Option GoError
  finishedAt : Nat := 0
  final : Option GoError
  deriving DecidableEq, Repr

/-- The arguments of one `smtp.SendMail(addr, a, from, to, msg)` call; `msg`
is `[]byte(message)`, kept as the string it converts. -/
structure SendMailArgs where
  addr : String
  a : PlainAuth
  «from» : String
  «to» : List String
  msg : String
  deriving DecidableEq, Repr

/-! ## main.go -/

namespace Plugin

/-- The fields of `models.ExecutionSteps` that `main.go` sets. A time field
left at its zero value is `none`. -/
structure ExecutionSteps where
  ID : String
  Messages : List String
  Status : String
  StartedAt : Option Nat := none
  FinishedAt : Option Nat := none
  deriving DecidableEq, Repr

/-- The field `request.Step.Action`. -/
structure Actions where
  Params : List Params
  deriving DecidableEq, Repr

/-- The field `request.Step`. -/
structure Step where
  ID : String
  Action : Actions
  deriving DecidableEq, Repr

/-- The field `request.Execution`; `ID` is the text `ID.String()` returns. -/
structure Execution where
  ID : String
  deriving DecidableEq, Repr

/-- The parts of `plugins.ExecuteTaskRequest` that `ExecuteTask` reads. -/
structure ExecuteTaskRequest where
  Config : String
  Execution : Execution
  Step : Step
  deriving DecidableEq, Repr

/-- The type `plugins.Response`. -/
structure Response where
  Success : Bool
  deriving DecidableEq, Repr

/-- A call into the outside world. -/
inductive Call where
  | UpdateStep (config : String) (executionID : String) (step : ExecutionSteps)
  | SendMail (args : SendMailArgs)
  deriving DecidableEq, Repr

/-- A call that was made, with the error it returned. -/
structure Event where
  call : Call
  result : Option GoError
  deriving DecidableEq, Repr

/-- What a run of `ExecuteTask` does and returns. -/
structure Run where
  trace : List Event
  response : Response
  err : Option GoError
  deriving DecidableEq, Repr

/-- The method `Plugin.ExecuteTask` of `main.go`. -/
def ExecuteTask (request : ExecuteTaskRequest) (ext : External) : Run :=
  let v := extract request.Step.Action.Params
  let running := Call.UpdateStep request.Config request.Execution.ID
    { ID := request.Step.ID
      Messages := ["Authenticate on SMTP Server: " ++ v.smtpHost ++ ":" ++ Itoa v.smtpPort]
      StartedAt := some ext.startedAt
      Status := "running" }
  match ext.running with
  | some err => { trace := [⟨running, some err⟩], response := { Success := false }, err := some err }
  | none =>
    let auth : PlainAuth := ⟨"", v.from, v.password, v.smtpHost ++ ":" ++ Itoa v.smtpPort⟩
    let send := Call.SendMail
      ⟨v.smtpHost ++ ":" ++ Itoa v.smtpPort, auth, v.from, v.to, v.message⟩
    match ext.sendMail with
    | some err =>
      let failed := Call.UpdateStep request.Config request.Execution.ID
        { ID := request.Step.ID
          Messages := ["Failed to send email: " ++ err.Error]
          Status := "error"
          FinishedAt := some ext.finishedAt }
      let trace : List Event := [⟨running, none⟩, ⟨send, some err⟩, ⟨failed, ext.final⟩]
      match ext.final with
      | some err => { trace := trace, response := { Success := false }, err := some err }
      | none => { trace := trace, response := { Success := false }, err := none }
    | none =>
      let sent := Call.UpdateStep request.Config request.Execution.ID
        { ID := request.Step.ID
          Messages := ["Email sent to " ++ Join v.to ", "]
          Status := "success"
          FinishedAt := some ext.finishedAt }
      let trace : List Event := [⟨running, none⟩, ⟨send, none⟩, ⟨sent, ext.final⟩]
      match ext.final with
      | some err => { trace := trace, response := { Success := false }, err := some err }
      | none => { trace := trace, response := { Success := true }, err := none }

/-- The type `models.Actions` as `Info` fills it. -/
structure ActionInfo where
  Name : String
  Description : String
  Plugin : String
  Icon : String
  Category : String
  Params : List Params
  deriving DecidableEq, Repr

/-- The type `models.Plugins` as `Info` fills it (`Endpoints` is empty). -/
structure Plugins where
  Name : String
  «Type» : String
  Version : String
  Author : String
  Actions : ActionInfo
  deriving DecidableEq, Repr

/-- The method `Plugin.Info` of `main.go`; the error it returns is nil. -/
def Info : Plugins × Option GoError :=
  ({ Name := "Mail"
     «Type» := "action"
     Version := "1.1.1"
     Author := "JustNZ"
     Actions :=
      { Name := "Mail"
        Description := "Send an email"
        Plugin := "mail"
        Icon := "solar:mailbox-linear"
        Category := "Utility"
        Params :=
          [ { Key := "From", «Type» := "text", Default := "from@mail.com", Required := true,
              Description := "Sender email address" },
            { Key := "Password", «Type» := "password", Default := "***", Required := false,
              Description := "Sender email password" },
            { Key := "To", «Type» := "text", Default := "to@mail.com", Required := false,
              Description := "Recipient email address. Multiple emails can be separated by comma" },
            { Key := "SmtpHost", «Type» := "text", Default := "smtp.mail.com", Required := true,
              Description := "SMTP server host" },
            { Key := "SmtpPort", «Type» := "number", Default := "587", Required := true,
              Description := "SMTP server port" },
            { Key := "Message", «Type» := "textarea", Default := "Email message", Required := true,
              Description := "Email message" } ] } }, none)

/-- The statuses of the step updates of a trace, in the order they were made. -/
def statuses (trace : List Event) : List String :=
  trace.filterMap fun e =>
    match e.call with
    | .UpdateStep _ _ step => some step.Status
    | .SendMail _ => none

/-- The message texts of the step updates of a trace, in order. -/
def messages (trace : List Event) : List (List String) :=
  trace.filterMap fun e =>
    match e.call with
    | .UpdateStep _ _ step => some step.Messages
    | .SendMail _ => none

/-- The arguments of the `SendMail` calls of a trace, in order. -/
def sendMails (trace : List Event) : List SendMailArgs :=
  trace.filterMap fun e =>
    match e.call with
    | .UpdateStep _ _ _ => none
    | .SendMail args => some args

/-- The errors that the `UpdateStep` calls of a trace returned, in order. -/
def updateErrors (trace : List Event) : List GoError :=
  trace.filterMap fun e =>
    match e.call with
    | .UpdateStep _ _ _ => e.result
    | .SendMail _ => none

/-- The call is a `smtp.SendMail` call. -/
def Call.isSendMail : Call → Bool
  | .SendMail _ => true
  | .UpdateStep _ _ _ => false

/-- The call is a step update with status "error". -/
def Call.isErrorUpdate : Call → Bool
  | .UpdateStep _ _ step => step.Status = "error"
  | .SendMail _ => false

/-- The call is a step update with status "success". -/
def Call.isSuccessUpdate : Call → Bool
  | .UpdateStep _ _ step => step.Status = "success"
  | .SendMail _ => false

end Plugin

/-! ## plugin.go -/

namespace EmailPlugin

/-- The fields of the runner's `models.ExecutionSteps` that `plugin.go` sets.
A field that a literal leaves out has its zero value. -/
structure ExecutionSteps where
  ID : String
  ActionID : String := ""
  ActionMessages : List String
  Pending : Bool := false
  StartedAt : Option Nat := none
  Running : Bool := false
  Finished : Bool := false
  FinishedAt : Option Nat := none
  Error : Bool := false
  deriving DecidableEq, Repr

/-- The argument `execution`; `ID` is the text `ID.String()` returns. -/
structure Execution where
  ID : String
  deriving DecidableEq, Repr

/-- The argument `action`; `ID` is the text `ID.String()` returns. -/
structure Actions where
  ID : String
  Params : List Params
  deriving DecidableEq, Repr

/-- A call into the outside world. -/
inductive Call where
  | UpdateStep (executionID : String) (step : ExecutionSteps)
  | SendMail (args : SendMailArgs)
  deriving DecidableEq, Repr

/-- A call that was made, with the error it returned. -/
structure Event where
  call : Call
  result : Option GoError
  deriving DecidableEq, Repr

/-- The five results of `Execute`; `data` is a map, `none` is the nil map. -/
structure Results where
  data : Option (List (String × String))
  finished : Bool
  canceled : Bool
  no_pattern_match : Bool
  failed : Bool
  deriving DecidableEq, Repr

/-- How a run of `Execute` ends: with a return, or with the run-time panic
of a method call on a nil `error`. -/
inductive Outcome where
  | returned (results : Results)
  | panic
  deriving DecidableEq, Repr

/-- What a run of `Execute` does: the calls into the outside world, the texts
given to `log.Error`, and how it ends. -/
structure Run where
  trace : List Event
  logged : List String
  outcome : Outcome
  deriving DecidableEq, Repr

/-- The method `EmailPlugin.Execute` of `plugin.go`. Its arguments `flow`,
`payload` and `steps` are never read and are left out; `stepID` is `step.ID`. -/
def Execute (execution : Execution) (stepID : String) (action : Actions)
    (ext : External) : Run :=
  let v := extract action.Params
  let running := Call.UpdateStep execution.ID
    { ID := stepID
      ActionID := action.ID
      ActionMessages := ["Authenticate on SMTP Server: " ++ v.smtpHost ++ ":" ++ Itoa v.smtpPort]
      Pending := false
      StartedAt := some ext.startedAt
      Running := true }
  match ext.running with
  | some err =>
    { trace := [⟨running, some err⟩], logged := []
      outcome := .returned ⟨none, false, false, false, true⟩ }
  | none =>
    let auth : PlainAuth := ⟨"", v.from, v.password, v.smtpHost ++ ":" ++ Itoa v.smtpPort⟩
    let send := Call.SendMail
      ⟨v.smtpHost ++ ":" ++ Itoa v.smtpPort, auth, v.from, v.to, v.message⟩
    match ext.sendMail with
    | some err =>
      let failed := Call.UpdateStep execution.ID
        { ID := stepID
          ActionID := action.ID
          ActionMessages := ["Failed to send email: " ++ err.Error]
          Pending := false
          Finished := true
          FinishedAt := some ext.finishedAt
          Running := false
          Error := true }
      let trace : List Event := [⟨running, none⟩, ⟨send, some err⟩, ⟨failed, ext.final⟩]
      -- `log.Error(err.Error())`, with no test of `err` before it
      match ext.final with
      | none => { trace := trace, logged := [], outcome := .panic }
      | some err =>
        { trace := trace, logged := [err.Error]
          outcome := .returned ⟨none, false, false, false, true⟩ }
    | none =>
      let sent := Call.UpdateStep execution.ID
        { ID := stepID
          ActionMessages := ["Email sent to " ++ Join v.to ", "]
          Running := false
          Finished := true
          FinishedAt := some ext.finishedAt }
      let trace : List Event := [⟨running, none⟩, ⟨send, none⟩, ⟨sent, ext.final⟩]
      match ext.final with
      | some err =>
        { trace := trace, logged := [err.Error]
          outcome := .returned ⟨none, false, false, false, true⟩ }
      | none =>
        { trace := trace, logged := []
          outcome := .returned ⟨none, true, false, false, false⟩ }

/-- The value `Default` of a declared parameter, which `plugin.go` gives as a
string or as an integer. -/
inductive DefaultValue where
  | str (s : String)
  | int (i : Int)
  deriving DecidableEq, Repr

/-- The type `models.Param` of the runner. -/
structure Param where
  Key : String
  «Type» : String
  Default : DefaultValue
  Required : Bool
  Description : String
  deriving DecidableEq, Repr

/-- The type `models.ActionDetails` as `Details` fills it. `Params` is the
slice `params` that `Details` hands to `json.Marshal`; `Function` is
`Execute`. -/
structure ActionDetails where
  ID : String
  Name : String
  Description : String
  Icon : String
  «Type» : String
  Category : String
  Params : List Param
  deriving DecidableEq, Repr

/-- The type `models.PluginDetails`. -/
structure PluginDetails where
  Action : ActionDetails
  deriving DecidableEq, Repr

/-- The method `EmailPlugin.Details` of `plugin.go`. -/
def Details : PluginDetails :=
  { Action :=
    { ID := "mail"
      Name := "Mail"
      Description := "Sends an email"
      Icon := "solar:mailbox-linear"
      «Type» := "mail"
      Category := "Utility"
      Params :=
        [ { Key := "From", «Type» := "text", Default := .str "from@mail.com", Required := true,
            Description := "Sender email address" },
          { Key := "Password", «Type» := "password", Default := .str "***", Required := false,
            Description := "Sender email password" },
          { Key := "To", «Type» := "text", Default := .str "to@mail.com", Required := false,
            Description := "Recipient email address. Multiple emails can be separated by comma" },
          { Key := "SmtpHost", «Type» := "text", Default := .str "smtp.mail.com", Required := true,
            Description := "SMTP server host" },
          { Key := "SmtpPort", «Type» := "number", Default := .int 587, Required := true,
            Description := "SMTP server port" },
          { Key := "Message", «Type» := "textarea", Default := .str "Email message", Required := true,
            Description := "Email message" } ] } }

/-- The message texts of the step updates of a trace, in order. -/
def messages (trace : List Event) : List (List String) :=
  trace.filterMap fun e =>
    match e.call with
    | .UpdateStep _ step => some step.ActionMessages
    | .SendMail _ => none

/-- The arguments of the `SendMail` calls of a trace, in order. -/
def sendMails (trace : List Event) : List SendMailArgs :=
  trace.filterMap fun e =>
    match e.call with
    | .UpdateStep _ _ => none
    | .SendMail args => some args

/-- The call is a `smtp.SendMail` call. -/
def Call.isSendMail : Call → Bool
  | .SendMail _ => true
  | .UpdateStep _ _ => false

/-- The call is the "error" step update: the one that sets `Error`. -/
def Call.isErrorUpdate : Call → Bool
  | .UpdateStep _ step => step.Error
  | .SendMail _ => false

/-- The call is the "success" step update: finished, not running, no error. -/
def Call.isSuccessUpdate : Call → Bool
  | .UpdateStep _ step => step.Finished && !step.Running && !step.Error
  | .SendMail _ => false

end EmailPlugin

/-! ## Notions used to state the properties -/

/-- The value of the last entry of `params` whose key is `K`, if there is one. -/
def lastValue (K : String) (params : List Params) : Option String :=
  ((params.filter fun p => p.Key = K).getLast?).map fun p => p.Value

/-- The six keys that the plugin declares to its host. -/
def recognisedKeys : List String :=
  ["From", "Password", "To", "SmtpHost", "SmtpPort", "Message"]

/-- The extraction loop consumes the key `K`: some entry with that key changes
some state of the six variables. -/
def Consumes (K : String) : Prop :=
  ∃ (v : Vars) (p : Params), p.Key = K ∧ v.step p ≠ v

/-- The request `request` with the list `params` as its action params. -/
def Plugin.ExecuteTaskRequest.withParams (request : Plugin.ExecuteTaskRequest)
    (params : List Params) : Plugin.ExecuteTaskRequest :=
  { request with Step := { request.Step with Action := { Params := params } } }

/-! ## The library functions and the extraction loop -/

/-- The empty list has no entry for any key. -/
theorem lastValue_nil (K : String) : lastValue K [] = none := rfl

/-- An entry added at the end is the last one for its own key only. -/
theorem lastValue_concat (K : String) (ps : List Params) (p : Params) :
    lastValue K (ps ++ [p]) = if p.Key = K then some p.Value else lastValue K ps := by
  by_cases h : p.Key = K <;> simp [lastValue, List.filter_append, List.filter_cons, h]

/-- The loop over `ps ++ [p]` is the loop over `ps`, then one iteration on `p`. -/
theorem extract_concat (ps : List Params) (p : Params) :
    extract (ps ++ [p]) = (extract ps).step p := by
  simp [extract, List.foldl_append]

/-- What one iteration does to `from`. -/
theorem Vars.step_from (v : Vars) (p : Params) :
    (v.step p).from = if p.Key = "From" then p.Value else v.from := by
  simp only [Vars.step]; split_ifs <;> rfl

/-- What one iteration does to `to`. -/
theorem Vars.step_to (v : Vars) (p : Params) :
    (v.step p).to = if p.Key = "To" then Split p.Value ',' else v.to := by
  simp only [Vars.step]; split_ifs <;> rfl

/-- What one iteration does to `smtpPort`. -/
theorem Vars.step_smtpPort (v : Vars) (p : Params) :
    (v.step p).smtpPort = if p.Key = "SmtpPort" then (Atoi p.Value).1 else v.smtpPort := by
  simp only [Vars.step]; split_ifs <;> rfl

/-- The loop leaves in `from` the value of the last "From" entry. -/
theorem extract_from (ps : List Params) :
    (extract ps).from = (lastValue "From" ps).getD "" := by
  induction ps using List.reverseRecOn with
  | nil => rfl
  | append_singleton ps p ih =>
    rw [extract_concat, Vars.step_from, lastValue_concat, ih]
    split_ifs <;> rfl

/-- The loop leaves in `smtpPort` what `Atoi` gives for the last "SmtpPort" entry. -/
theorem extract_smtpPort (ps : List Params) :
    (extract ps).smtpPort = ((lastValue "SmtpPort" ps).map fun s => (Atoi s).1).getD 0 := by
  induction ps using List.reverseRecOn with
  | nil => rfl
  | append_singleton ps p ih =>
    rw [extract_concat, Vars.step_smtpPort, lastValue_concat, ih]
    split_ifs <;> rfl

/-- An entry with an unrecognised key changes none of the six variables. -/
theorem Vars.step_of_not_mem (v : Vars) (p : Params) (h : p.Key ∉ recognisedKeys) :
    v.step p = v := by
  simp only [recognisedKeys, List.mem_cons, List.mem_singleton, not_or, List.mem_nil_iff, not_false_eq_true, and_true] at h
  obtain ⟨h1, h2, h3, h4, h5, h6⟩ := h
  simp [Vars.step, h1, h2, h3, h4, h5, h6]

/-- An entry with an unrecognised key can be dropped from the list. -/
theorem extract_insert (pre post : List Params) (p : Params) (h : p.Key ∉ recognisedKeys) :
    extract (pre ++ p :: post) = extract (pre ++ post) := by
  simp [extract, List.foldl_append, Vars.step_of_not_mem _ p h]

/-- Splitting gives at least one piece. -/
theorem splitChars_ne_nil (sep : Char) (l : List Char) : splitChars sep l ≠ [] := by
  induction l with
  | nil => simp [splitChars]
  | cons c cs ih =>
    simp only [splitChars]
    split_ifs
    · simp
    · split <;> simp

/-- Splitting gives one piece more than there are separators. -/
theorem length_splitChars (sep : Char) (l : List Char) :
    (splitChars sep l).length = l.count sep + 1 := by
  induction l with
  | nil => simp [splitChars]
  | cons c cs ih =>
    simp only [splitChars]
    split_ifs with h
    · subst h; simp [ih]
    · have : List.count sep (c :: cs) = List.count sep cs := by
        simp [List.count_cons, h]
      rw [this, ← ih]
      split
      · next h' => exact absurd h' (splitChars_ne_nil _ _)
      · next h' => simp [h']

/-- No piece contains the separator. -/
theorem not_mem_of_mem_splitChars (sep : Char) (l : List Char) :
    ∀ piece ∈ splitChars sep l, sep ∉ piece := by
  induction l with
  | nil => simp [splitChars]
  | cons c cs ih =>
    simp only [splitChars]
    split_ifs with h
    · intro piece hp
      rcases List.mem_cons.1 hp with rfl | hp
      · simp
      · exact ih _ hp
    · split
      · next h' => exact absurd h' (splitChars_ne_nil _ _)
      · next piece pieces h' =>
        rw [h'] at ih
        intro q hq
        rcases List.mem_cons.1 hq with rfl | hq
        · have := ih piece (by simp)
          simp [this, Ne.symm h]
        · exact ih q (by simp [hq])

/-- A byte in front of the first element comes out in front of the joined text. -/
theorem Join_cons_cons (c : Char) (piece : List Char) (rest : List String) (sep : String) :
    Join (String.mk (c :: piece) :: rest) sep = String.mk [c] ++ Join (String.mk piece :: rest) sep := by
  cases rest with
  | nil => simp [Join]; rfl
  | cons b rest => 
    simp only [Join]
    apply String.ext
    simp

/-- Joining the pieces with the separator gives the text back. -/
theorem Join_splitChars (sep : Char) (l : List Char) :
    Join ((splitChars sep l).map String.mk) (String.mk [sep]) = String.mk l := by
  induction l with
  | nil => simp [splitChars, Join]
  | cons c cs ih =>
    simp only [splitChars]
    split_ifs with h
    · subst h
      obtain ⟨b, rest, hb⟩ := List.exists_cons_of_ne_nil (splitChars_ne_nil c cs)
      rw [hb] at ih ⊢
      simp only [List.map_cons, Join] at ih ⊢
      rw [ih]
      apply String.ext; simp
    · split
      · next h' => exact absurd h' (splitChars_ne_nil _ _)
      · next piece pieces h' =>
        rw [h'] at ih
        simp only [List.map_cons] at ih ⊢
        rw [Join_cons_cons, ih]
        apply String.ext; simp

/-- What one iteration does to `password`. -/
theorem Vars.step_password (v : Vars) (p : Params) :
    (v.step p).password = if p.Key = "Password" then p.Value else v.password := by
  simp only [Vars.step]; split_ifs <;> rfl

/-- What one iteration does to `smtpHost`. -/
theorem Vars.step_smtpHost (v : Vars) (p : Params) :
    (v.step p).smtpHost = if p.Key = "SmtpHost" then p.Value else v.smtpHost := by
  simp only [Vars.step]; split_ifs <;> rfl

/-- What one iteration does to `message`. -/
theorem Vars.step_message (v : Vars) (p : Params) :
    (v.step p).message = if p.Key = "Message" then p.Value else v.message := by
  simp only [Vars.step]; split_ifs <;> rfl

/-- The loop leaves in `password` the value of the last "Password" entry. -/
theorem extract_password (ps : List Params) :
    (extract ps).password = (lastValue "Password" ps).getD "" := by
  induction ps using List.reverseRecOn with
  | nil => rfl
  | append_singleton ps p ih =>
    rw [extract_concat, Vars.step_password, lastValue_concat, ih]
    split_ifs <;> rfl

/-- The loop leaves in `smtpHost` the value of the last "SmtpHost" entry. -/
theorem extract_smtpHost (ps : List Params) :
    (extract ps).smtpHost = (lastValue "SmtpHost" ps).getD "" := by
  induction ps using List.reverseRecOn with
  | nil => rfl
  | append_singleton ps p ih =>
    rw [extract_concat, Vars.step_smtpHost, lastValue_concat, ih]
    split_ifs <;> rfl

/-- The loop leaves in `message` the value of the last "Message" entry. -/
theorem extract_message (ps : List Params) :
    (extract ps).message = (lastValue "Message" ps).getD "" := by
  induction ps using List.reverseRecOn with
  | nil => rfl
  | append_singleton ps p ih =>
    rw [extract_concat, Vars.step_message, lastValue_concat, ih]
    split_ifs <;> rfl

/-- The loop leaves in `to` the split value of the last "To" entry. -/
theorem extract_to (ps : List Params) :
    (extract ps).to = ((lastValue "To" ps).map fun s => Split s ',').getD [] := by
  induction ps using List.reverseRecOn with
  | nil => rfl
  | append_singleton ps p ih =>
    rw [extract_concat, Vars.step_to, lastValue_concat, ih]
    split_ifs <;> rfl

/-- The address is never the bare host: it is longer. -/
theorem address_ne_host (host port : String) : host ++ ":" ++ port ≠ host := by
  intro h
  have hl := congrArg String.length h
  have hc : ":".length = 1 := rfl
  rw [String.length_append, String.length_append, hc] at hl
  omega

/-! ## Properties of `ExecuteTask` (main.go) -/

namespace Plugin

/-- The statuses a run reports, as a function of the results of the calls. -/
theorem statuses_ExecuteTask (request : ExecuteTaskRequest) (ext : External) :
    statuses (ExecuteTask request ext).trace =
      "running" :: (match ext.running, ext.sendMail with
        | some _, _ => []
        | none, none => ["success"]
        | none, some _ => ["error"]) := by
  rcases ext with ⟨sa, _ | r, _ | s, fa, _ | f⟩ <;> simp [ExecuteTask, statuses]

/-- C1: the statuses `ExecuteTask` reports are "running" first and then at
most one more; that one is "success" when `SendMail` returned no error and
"error" when it returned one. No run reports both "success" and "error", and
none reports either of them before "running". -/
theorem ExecuteTask_status_sequence (request : ExecuteTaskRequest) (ext : External) :
    ∃ rest : List String,
      statuses (ExecuteTask request ext).trace = "running" :: rest ∧
      rest.length ≤ 1 ∧
      (∀ s ∈ rest, (ext.sendMail = none → s = "success") ∧
        (ext.sendMail ≠ none → s = "error")) ∧
      ¬ ("success" ∈ statuses (ExecuteTask request ext).trace ∧
          "error" ∈ statuses (ExecuteTask request ext).trace) ∧
      (∀ pre s post, statuses (ExecuteTask request ext).trace = pre ++ s :: post →
        s = "success" ∨ s = "error" → "running" ∈ pre) := by
  rw [statuses_ExecuteTask]
  refine ⟨_, rfl, ?_, ?_, ?_, ?_⟩
  · rcases ext with ⟨sa, _ | r, _ | s, fa, f⟩ <;> simp
  · rcases ext with ⟨sa, _ | r, _ | s, fa, f⟩ <;> simp
  · rcases ext with ⟨sa, _ | r, _ | s, fa, f⟩ <;> simp
  · intro pre s post h hs
    rcases pre with _ | ⟨a, pre⟩
    · simp at h
      rcases hs with hs | hs <;> simp [hs] at h
    · simp at h
      simp [h.1]

/-- C1, at a request whose mail is refused: the run reports "error" after
"running", and so it reports no "success". -/
theorem ExecuteTask_status_sequence_witness :
    "success" ∉ statuses (ExecuteTask
      ⟨"cfg", ⟨"e1"⟩, ⟨"s1", ⟨[{ Key := "To", Value := "a@b.c" }]⟩⟩⟩
      { running := none, sendMail := some ⟨"refused"⟩, final := none }).trace := by
  obtain ⟨rest, _, _, _, hboth, hbefore⟩ := ExecuteTask_status_sequence
    ⟨"cfg", ⟨"e1"⟩, ⟨"s1", ⟨[{ Key := "To", Value := "a@b.c" }]⟩⟩⟩
    { running := none, sendMail := some ⟨"refused"⟩, final := none }
  have hrun : "running" ∈ ["running"] :=
    hbefore ["running"] "error" [] (by decide) (Or.inr rfl)
  exact fun h => hboth ⟨h, by decide⟩

/-- C2: `ExecuteTask` returns `Success = true` exactly when the "running"
update, `SendMail` and the "success" update all returned no error; it returns
a non-nil error exactly when an `UpdateStep` call it made returned one, and
then it returns that error. When `SendMail` fails and the "error" update
succeeds, the result is `Success = false` with a nil error. -/
theorem ExecuteTask_result (request : ExecuteTaskRequest) (ext : External) :
    ((ExecuteTask request ext).response.Success = true ↔
      ext.running = none ∧ ext.sendMail = none ∧ ext.final = none) ∧
    ((ExecuteTask request ext).err ≠ none ↔
      updateErrors (ExecuteTask request ext).trace ≠ []) ∧
    (∀ e ∈ updateErrors (ExecuteTask request ext).trace,
      (ExecuteTask request ext).err = some e) ∧
    (ext.running = none → ext.sendMail ≠ none → ext.final = none →
      (ExecuteTask request ext).response.Success = false ∧
      (ExecuteTask request ext).err = none ∧
      (ExecuteTask request ext).trace.length = 3) := by
  rcases ext with ⟨sa, _ | r, _ | s, fa, _ | f⟩ <;> simp [ExecuteTask, updateErrors]

/-- C2, at a request whose mail is refused and whose "error" update goes
through: `Success = false` and a nil error. -/
theorem ExecuteTask_result_witness :
    (ExecuteTask ⟨"cfg", ⟨"e1"⟩, ⟨"s1", ⟨[{ Key := "To", Value := "a@b.c" }]⟩⟩⟩
        { running := none, sendMail := some ⟨"refused"⟩, final := none }).response.Success
      = false ∧
    (ExecuteTask ⟨"cfg", ⟨"e1"⟩, ⟨"s1", ⟨[{ Key := "To", Value := "a@b.c" }]⟩⟩⟩
        { running := none, sendMail := some ⟨"refused"⟩, final := none }).err = none ∧
    (ExecuteTask ⟨"cfg", ⟨"e1"⟩, ⟨"s1", ⟨[{ Key := "To", Value := "a@b.c" }]⟩⟩⟩
        { running := none, sendMail := some ⟨"refused"⟩, final := none }).trace.length = 3 :=
  (ExecuteTask_result ⟨"cfg", ⟨"e1"⟩, ⟨"s1", ⟨[{ Key := "To", Value := "a@b.c" }]⟩⟩⟩
    { running := none, sendMail := some ⟨"refused"⟩, final := none }).2.2.2
    rfl (by decide) rfl

/-- The first error is reported and the run stops: what `ExecuteTask` calls
and returns around a failing call. -/
theorem ExecuteTask_stops (request : ExecuteTaskRequest) (ext : External) :
    (∃ first rest, (ExecuteTask request ext).trace = first :: rest ∧
      first.call.isSendMail = false ∧ first.result = ext.running) ∧
    (ext.running ≠ none →
      (ExecuteTask request ext).trace.length = 1 ∧
      sendMails (ExecuteTask request ext).trace = []) ∧
    (ext.running = none →
      (sendMails (ExecuteTask request ext).trace).length = 1 ∧
      ∃ ev ∈ (ExecuteTask request ext).trace, ev.call.isSendMail = true ∧ ev.result = ext.sendMail) ∧
    (∀ ev ∈ (ExecuteTask request ext).trace, ev.call.isSendMail = true → ev.result ≠ none →
      ∀ ev' ∈ (ExecuteTask request ext).trace, ev'.call.isSuccessUpdate = false) ∧
    (∀ pre ev post e, (ExecuteTask request ext).trace = pre ++ ev :: post → ev.result = some e →
      (ev.call.isSendMail = false → post = []) ∧
      (ev.call.isSendMail = true →
        ∃ ev', post = [ev'] ∧ ev'.call.isErrorUpdate = true ∧ ev'.result = ext.final ∧
          messages [ev'] = [["Failed to send email: " ++ e.Error]])) ∧
    (∀ ev ∈ (ExecuteTask request ext).trace, ev.result ≠ none →
      (ExecuteTask request ext).response.Success = false) ∧
    (∀ ev ∈ (ExecuteTask request ext).trace, ev.call.isSendMail = false →
      ∀ e, ev.result = some e → (ExecuteTask request ext).err = some e) := by
  rcases ext with ⟨sa, _ | r, _ | s, fa, _ | f⟩ <;>
    refine ⟨?_, ?_, ?_, ?_, ?_, ?_, ?_⟩ <;>
    first
    | (simp [ExecuteTask, sendMails, Call.isSendMail, Call.isSuccessUpdate]; done)
    | (intro pre ev post e h hr
       rcases pre with _ | ⟨a, _ | ⟨b, _ | ⟨c, pre⟩⟩⟩ <;>
        simp [ExecuteTask] at h <;>
        (try obtain ⟨rfl, h⟩ := h) <;> (try obtain ⟨rfl, h⟩ := h) <;>
        (try obtain ⟨rfl, h⟩ := h) <;>
        simp_all [Call.isSendMail, Call.isErrorUpdate, messages])

end Plugin

/-! ## Properties of `Execute` (plugin.go) -/

namespace EmailPlugin

/-- The first error is reported and the run stops: what `Execute` calls and
returns around a failing call. -/
theorem Execute_stops (execution : Execution) (stepID : String) (action : Actions)
    (ext : External) :
    (∃ first rest, (Execute execution stepID action ext).trace = first :: rest ∧
      first.call.isSendMail = false ∧ first.result = ext.running) ∧
    (ext.running ≠ none →
      (Execute execution stepID action ext).trace.length = 1 ∧
      sendMails (Execute execution stepID action ext).trace = []) ∧
    (ext.running = none →
      (sendMails (Execute execution stepID action ext).trace).length = 1 ∧
      ∃ ev ∈ (Execute execution stepID action ext).trace, ev.call.isSendMail = true ∧ ev.result = ext.sendMail) ∧
    (∀ ev ∈ (Execute execution stepID action ext).trace, ev.call.isSendMail = true → ev.result ≠ none →
      ∀ ev' ∈ (Execute execution stepID action ext).trace, ev'.call.isSuccessUpdate = false) ∧
    (∀ pre ev post e, (Execute execution stepID action ext).trace = pre ++ ev :: post → ev.result = some e →
      (ev.call.isSendMail = false → post = []) ∧
      (ev.call.isSendMail = true →
        ∃ ev', post = [ev'] ∧ ev'.call.isErrorUpdate = true ∧ ev'.result = ext.final ∧
          messages [ev'] = [["Failed to send email: " ++ e.Error]])) ∧
    (∀ ev ∈ (Execute execution stepID action ext).trace, ev.result ≠ none →
      ∀ r, (Execute execution stepID action ext).outcome = .returned r → r = ⟨none, false, false, false, true⟩) ∧
    (∀ ev ∈ (Execute execution stepID action ext).trace, ev.call.isSendMail = false → ev.result ≠ none →
      (Execute execution stepID action ext).outcome = .returned ⟨none, false, false, false, true⟩) := by
  rcases ext with ⟨sa, _ | r, _ | s, fa, _ | f⟩ <;>
    refine ⟨?_, ?_, ?_, ?_, ?_, ?_, ?_⟩ <;>
    first
    | (simp [Execute, sendMails, Call.isSendMail, Call.isSuccessUpdate]; done)
    | (intro pre ev post e h hr
       rcases pre with _ | ⟨a, _ | ⟨b, _ | ⟨c, pre⟩⟩⟩ <;>
        simp [Execute] at h <;>
        (try obtain ⟨rfl, h⟩ := h) <;> (try obtain ⟨rfl, h⟩ := h) <;>
        (try obtain ⟨rfl, h⟩ := h) <;>
        simp_all [Call.isSendMail, Call.isErrorUpdate, messages])

/-- When `SendMail` fails and the "error" update fails too, `Execute` logs the
error of the update and returns `(nil, false, false, false, true)`. -/
theorem Execute_sendMail_error_update_error (execution : Execution) (stepID : String)
    (action : Actions) (startedAt finishedAt : Nat) (e e' : GoError) :
    (Execute execution stepID action
      { startedAt := startedAt, running := none, sendMail := some e,
        finishedAt := finishedAt, final := some e' }).outcome
      = .returned ⟨none, false, false, false, true⟩ := by
  simp [Execute]

/-- C4, at the input that breaks it: when `SendMail` fails and the "error"
update returns nil, `Execute` does not return; it panics in `err.Error()`. -/
theorem Execute_panics_when_error_update_succeeds (execution : Execution)
    (stepID : String) (action : Actions) (startedAt finishedAt : Nat) (e : GoError) :
    (Execute execution stepID action
      { startedAt := startedAt, running := none, sendMail := some e,
        finishedAt := finishedAt, final := none }).outcome = .panic := by
  simp [Execute]

end EmailPlugin

/-! ## Properties of both files -/

/-- C3: report the first error and stop, in `ExecuteTask` and in `Execute`.
The first call is the "running" update. If it fails it is the only call of
the run: `SendMail` is not called and no other update is made. Otherwise
`SendMail` is called exactly once. After a failing `SendMail` no "success"
update is made. After a failing update no later call is made; after a failing
`SendMail` exactly one later call is made, the "error" update, whose message
is "Failed to send email: " and the text of the error. A run with a failing
call does not return success: `ExecuteTask` returns `Success = false`, and
the error of a failing update; `Execute`, when it returns, returns
`(nil, false, false, false, true)`, and it does return so after a failing
update. -/
theorem first_error_stops (request : Plugin.ExecuteTaskRequest)
    (execution : EmailPlugin.Execution) (stepID : String) (action : EmailPlugin.Actions)
    (ext : External) :
    ((∃ first rest, (Plugin.ExecuteTask request ext).trace = first :: rest ∧
        first.call.isSendMail = false ∧ first.result = ext.running) ∧
      (ext.running ≠ none →
        (Plugin.ExecuteTask request ext).trace.length = 1 ∧
        Plugin.sendMails (Plugin.ExecuteTask request ext).trace = []) ∧
      (ext.running = none →
        (Plugin.sendMails (Plugin.ExecuteTask request ext).trace).length = 1 ∧
        ∃ ev ∈ (Plugin.ExecuteTask request ext).trace, ev.call.isSendMail = true ∧ ev.result = ext.sendMail) ∧
      (∀ ev ∈ (Plugin.ExecuteTask request ext).trace, ev.call.isSendMail = true → ev.result ≠ none →
        ∀ ev' ∈ (Plugin.ExecuteTask request ext).trace, ev'.call.isSuccessUpdate = false) ∧
      (∀ pre ev post e, (Plugin.ExecuteTask request ext).trace = pre ++ ev :: post → ev.result = some e →
        (ev.call.isSendMail = false → post = []) ∧
        (ev.call.isSendMail = true →
          ∃ ev', post = [ev'] ∧ ev'.call.isErrorUpdate = true ∧ ev'.result = ext.final ∧
            Plugin.messages [ev'] = [["Failed to send email: " ++ e.Error]])) ∧
      (∀ ev ∈ (Plugin.ExecuteTask request ext).trace, ev.result ≠ none →
        (Plugin.ExecuteTask request ext).response.Success = false) ∧
      (∀ ev ∈ (Plugin.ExecuteTask request ext).trace, ev.call.isSendMail = false →
        ∀ e, ev.result = some e → (Plugin.ExecuteTask request ext).err = some e)) ∧
    ((∃ first rest, (EmailPlugin.Execute execution stepID action ext).trace = first :: rest ∧
        first.call.isSendMail = false ∧ first.result = ext.running) ∧
      (ext.running ≠ none →
        (EmailPlugin.Execute execution stepID action ext).trace.length = 1 ∧
        EmailPlugin.sendMails (EmailPlugin.Execute execution stepID action ext).trace = []) ∧
      (ext.running = none →
        (EmailPlugin.sendMails (EmailPlugin.Execute execution stepID action ext).trace).length = 1 ∧
        ∃ ev ∈ (EmailPlugin.Execute execution stepID action ext).trace, ev.call.isSendMail = true ∧ ev.result = ext.sendMail) ∧
      (∀ ev ∈ (EmailPlugin.Execute execution stepID action ext).trace, ev.call.isSendMail = true → ev.result ≠ none →
        ∀ ev' ∈ (EmailPlugin.Execute execution stepID action ext).trace, ev'.call.isSuccessUpdate = false) ∧
      (∀ pre ev post e, (EmailPlugin.Execute execution stepID action ext).trace = pre ++ ev :: post → ev.result = some e →
        (ev.call.isSendMail = false → post = []) ∧
        (ev.call.isSendMail = true →
          ∃ ev', post = [ev'] ∧ ev'.call.isErrorUpdate = true ∧ ev'.result = ext.final ∧
            EmailPlugin.messages [ev'] = [["Failed to send email: " ++ e.Error]])) ∧
      (∀ ev ∈ (EmailPlugin.Execute execution stepID action ext).trace, ev.result ≠ none →
        ∀ r, (EmailPlugin.Execute execution stepID action ext).outcome = .returned r → r = ⟨none, false, false, false, true⟩) ∧
      (∀ ev ∈ (EmailPlugin.Execute execution stepID action ext).trace, ev.call.isSendMail = false → ev.result ≠ none →
        (EmailPlugin.Execute execution stepID action ext).outcome = .returned ⟨none, false, false, false, true⟩)) :=
  ⟨Plugin.ExecuteTask_stops request ext, EmailPlugin.Execute_stops execution stepID action ext⟩

/-- C3, at a run whose "running" update fails (one call, no `SendMail`, and
the error returned, in either file) and at a run whose mail is refused (the
call after `SendMail` is the "error" update with the text of the error). -/
theorem first_error_stops_witness :
    ((Plugin.ExecuteTask ⟨"cfg", ⟨"e1"⟩, ⟨"s1", ⟨[{ Key := "To", Value := "a@b.c" }]⟩⟩⟩
        { running := some ⟨"down"⟩, sendMail := none, final := none }).trace.length = 1 ∧
      Plugin.sendMails (Plugin.ExecuteTask ⟨"cfg", ⟨"e1"⟩, ⟨"s1", ⟨[{ Key := "To", Value := "a@b.c" }]⟩⟩⟩
        { running := some ⟨"down"⟩, sendMail := none, final := none }).trace = []) ∧
    (Plugin.ExecuteTask ⟨"cfg", ⟨"e1"⟩, ⟨"s1", ⟨[{ Key := "To", Value := "a@b.c" }]⟩⟩⟩
        { running := some ⟨"down"⟩, sendMail := none, final := none }).err = some ⟨"down"⟩ ∧
    (EmailPlugin.Execute ⟨"e1"⟩ "s1" ⟨"a1", [{ Key := "To", Value := "a@b.c" }]⟩
        { running := some ⟨"down"⟩, sendMail := none, final := none }).outcome = .returned ⟨none, false, false, false, true⟩ ∧
    (∃ ev', [(⟨.UpdateStep "e1"
          { ID := "s1", ActionID := "a1", ActionMessages := ["Failed to send email: refused"],
            Finished := true, FinishedAt := some 0, Error := true }, none⟩ :
          EmailPlugin.Event)] = [ev'] ∧
      ev'.call.isErrorUpdate = true ∧ ev'.result = none ∧
      EmailPlugin.messages [ev'] = [["Failed to send email: " ++ "refused"]]) :=
  ⟨(first_error_stops ⟨"cfg", ⟨"e1"⟩, ⟨"s1", ⟨[{ Key := "To", Value := "a@b.c" }]⟩⟩⟩
      ⟨"e1"⟩ "s1" ⟨"a1", [{ Key := "To", Value := "a@b.c" }]⟩
      { running := some ⟨"down"⟩, sendMail := none, final := none }).1.2.1 (by decide),
    (first_error_stops ⟨"cfg", ⟨"e1"⟩, ⟨"s1", ⟨[{ Key := "To", Value := "a@b.c" }]⟩⟩⟩
      ⟨"e1"⟩ "s1" ⟨"a1", [{ Key := "To", Value := "a@b.c" }]⟩
      { running := some ⟨"down"⟩, sendMail := none, final := none }).1.2.2.2.2.2.2
      ⟨.UpdateStep "cfg" "e1"
        { ID := "s1", Messages := ["Authenticate on SMTP Server: :0"], Status := "running",
          StartedAt := some 0 }, some ⟨"down"⟩⟩ (by decide) rfl ⟨"down"⟩ rfl,
    (first_error_stops ⟨"cfg", ⟨"e1"⟩, ⟨"s1", ⟨[{ Key := "To", Value := "a@b.c" }]⟩⟩⟩
      ⟨"e1"⟩ "s1" ⟨"a1", [{ Key := "To", Value := "a@b.c" }]⟩
      { running := some ⟨"down"⟩, sendMail := none, final := none }).2.2.2.2.2.2.2
      ⟨.UpdateStep "e1"
        { ID := "s1", ActionID := "a1",
          ActionMessages := ["Authenticate on SMTP Server: :0"], StartedAt := some 0,
          Running := true }, some ⟨"down"⟩⟩ (by decide) rfl (by decide),
    ((first_error_stops ⟨"cfg", ⟨"e1"⟩, ⟨"s1", ⟨[{ Key := "To", Value := "a@b.c" }]⟩⟩⟩
      ⟨"e1"⟩ "s1" ⟨"a1", [{ Key := "To", Value := "a@b.c" }]⟩
      { running := none, sendMail := some ⟨"refused"⟩, final := none }).2.2.2.2.2.1
      [⟨.UpdateStep "e1"
        { ID := "s1", ActionID := "a1",
          ActionMessages := ["Authenticate on SMTP Server: :0"], StartedAt := some 0,
          Running := true }, none⟩]
      ⟨.SendMail ⟨":0", ⟨"", "", "", ":0"⟩, "", ["a@b.c"], ""⟩, some ⟨"refused"⟩⟩
      [⟨.UpdateStep "e1"
        { ID := "s1", ActionID := "a1", ActionMessages := ["Failed to send email: refused"],
          Finished := true, FinishedAt := some 0, Error := true }, none⟩]
      ⟨"refused"⟩ (by decide) rfl).2 rfl⟩

/-- When the "running" update goes through, `ExecuteTask` calls `SendMail`
once, with arguments built from the six extracted variables. -/
theorem Plugin.sendMails_ExecuteTask (request : Plugin.ExecuteTaskRequest) (ext : External)
    (h : ext.running = none) :
    Plugin.sendMails (Plugin.ExecuteTask request ext).trace =
      [⟨(extract request.Step.Action.Params).smtpHost ++ ":" ++
          Itoa (extract request.Step.Action.Params).smtpPort,
        ⟨"", (extract request.Step.Action.Params).from,
          (extract request.Step.Action.Params).password,
          (extract request.Step.Action.Params).smtpHost ++ ":" ++
            Itoa (extract request.Step.Action.Params).smtpPort⟩,
        (extract request.Step.Action.Params).from,
        (extract request.Step.Action.Params).to,
        (extract request.Step.Action.Params).message⟩] := by
  rcases ext with ⟨sa, _ | r, _ | s, fa, _ | f⟩ <;>
    simp_all [Plugin.ExecuteTask, Plugin.sendMails]

/-- When the "running" update goes through, `Execute` calls `SendMail` once,
with arguments built from the six extracted variables. -/
theorem EmailPlugin.sendMails_Execute (execution : EmailPlugin.Execution) (stepID : String)
    (action : EmailPlugin.Actions) (ext : External) (h : ext.running = none) :
    EmailPlugin.sendMails (EmailPlugin.Execute execution stepID action ext).trace =
      [⟨(extract action.Params).smtpHost ++ ":" ++ Itoa (extract action.Params).smtpPort,
        ⟨"", (extract action.Params).from, (extract action.Params).password,
          (extract action.Params).smtpHost ++ ":" ++ Itoa (extract action.Params).smtpPort⟩,
        (extract action.Params).from,
        (extract action.Params).to,
        (extract action.Params).message⟩] := by
  rcases ext with ⟨sa, _ | r, _ | s, fa, _ | f⟩ <;>
    simp_all [EmailPlugin.Execute, EmailPlugin.sendMails]

/-- When the "running" update fails, neither file calls `SendMail`. -/
theorem sendMails_of_running_error (request : Plugin.ExecuteTaskRequest)
    (execution : EmailPlugin.Execution) (stepID : String) (action : EmailPlugin.Actions)
    (ext : External) (h : ext.running ≠ none) :
    Plugin.sendMails (Plugin.ExecuteTask request ext).trace = [] ∧
    EmailPlugin.sendMails (EmailPlugin.Execute execution stepID action ext).trace = [] := by
  rcases ext with ⟨sa, _ | r, _ | s, fa, _ | f⟩ <;>
    simp_all [Plugin.ExecuteTask, Plugin.sendMails, EmailPlugin.Execute, EmailPlugin.sendMails]

/-- On the same params and the same results of the calls, the two files call
`SendMail` with the same arguments and report the same message texts; and
their results correspond, unless `SendMail` fails and the "error" update
returns nil. -/
theorem implementations_agree_unless_panic (request : Plugin.ExecuteTaskRequest)
    (execution : EmailPlugin.Execution) (stepID : String) (action : EmailPlugin.Actions)
    (ext : External) (h : request.Step.Action.Params = action.Params) :
    Plugin.sendMails (Plugin.ExecuteTask request ext).trace =
      EmailPlugin.sendMails (EmailPlugin.Execute execution stepID action ext).trace ∧
    Plugin.messages (Plugin.ExecuteTask request ext).trace =
      EmailPlugin.messages (EmailPlugin.Execute execution stepID action ext).trace ∧
    (¬ (ext.running = none ∧ ext.sendMail ≠ none ∧ ext.final = none) →
      ∃ r, (EmailPlugin.Execute execution stepID action ext).outcome = .returned r ∧
        ((Plugin.ExecuteTask request ext).response.Success = true ↔
          r.finished = true ∧ r.failed = false) ∧
        ((Plugin.ExecuteTask request ext).response.Success = false ↔
          r.finished = false ∧ r.failed = true)) := by
  rcases ext with ⟨sa, _ | r, _ | s, fa, _ | f⟩ <;>
    simp [Plugin.ExecuteTask, Plugin.sendMails, Plugin.messages, EmailPlugin.Execute,
      EmailPlugin.sendMails, EmailPlugin.messages, h]

/-- C5, at the input that breaks it: when `SendMail` fails and the "error"
update returns nil, `ExecuteTask` returns `Success = false` with a nil error,
while `Execute` returns nothing at all: it panics. -/
theorem implementations_disagree_when_error_update_succeeds
    (request : Plugin.ExecuteTaskRequest) (execution : EmailPlugin.Execution)
    (stepID : String) (action : EmailPlugin.Actions) (startedAt finishedAt : Nat)
    (e : GoError) :
    (Plugin.ExecuteTask request
      { startedAt := startedAt, running := none, sendMail := some e,
        finishedAt := finishedAt, final := none }).response.Success = false ∧
    (Plugin.ExecuteTask request
      { startedAt := startedAt, running := none, sendMail := some e,
        finishedAt := finishedAt, final := none }).err = none ∧
    ∀ r, (EmailPlugin.Execute execution stepID action
      { startedAt := startedAt, running := none, sendMail := some e,
        finishedAt := finishedAt, final := none }).outcome ≠ .returned r := by
  simp [Plugin.ExecuteTask, EmailPlugin.Execute]

/-- C6: the recipients are the comma-separated pieces of the last "To" value
`v`. The list given to `SendMail` is `Split v ","`; it has one element more
than `v` has commas, no element contains a comma, and joining the elements
with "," gives `v` back. With no "To" entry the list is empty. -/
theorem recipients_are_split (params : List Params) (request : Plugin.ExecuteTaskRequest)
    (execution : EmailPlugin.Execution) (stepID : String) (action : EmailPlugin.Actions)
    (ext : External) (hreq : request.Step.Action.Params = params)
    (hact : action.Params = params) (hrun : ext.running = none) :
    (∀ v, lastValue "To" params = some v →
      (Plugin.sendMails (Plugin.ExecuteTask request ext).trace).map (fun a => a.to)
        = [Split v ','] ∧
      (EmailPlugin.sendMails (EmailPlugin.Execute execution stepID action ext).trace).map
        (fun a => a.to) = [Split v ','] ∧
      (Split v ',').length = Count v ',' + 1 ∧
      (∀ piece ∈ Split v ',', ',' ∉ piece.data) ∧
      Join (Split v ',') "," = v) ∧
    (lastValue "To" params = none →
      (Plugin.sendMails (Plugin.ExecuteTask request ext).trace).map (fun a => a.to) = [[]] ∧
      (EmailPlugin.sendMails (EmailPlugin.Execute execution stepID action ext).trace).map
        (fun a => a.to) = [[]]) := by
  rw [Plugin.sendMails_ExecuteTask request ext hrun,
    EmailPlugin.sendMails_Execute execution stepID action ext hrun, hreq, hact]
  simp only [List.map_cons, List.map_nil, extract_to]
  refine ⟨fun v hv => ⟨by rw [hv]; rfl, by rw [hv]; rfl, ?_, ?_, ?_⟩,
    fun hn => ⟨by rw [hn]; rfl, by rw [hn]; rfl⟩⟩
  · simp [Split, Count, length_splitChars]
  · intro piece hp
    obtain ⟨l, hl, rfl⟩ := List.mem_map.1 hp
    exact not_mem_of_mem_splitChars ',' v.data l hl
  · exact Join_splitChars ',' v.data

/-- C6, at the params `To = "a@x.org,, b@y.org"` (an empty piece, a piece with
a blank) and at the value `To = ""`. -/
theorem recipients_are_split_witness :
    (Plugin.sendMails (Plugin.ExecuteTask
        ⟨"cfg", ⟨"e1"⟩, ⟨"s1", ⟨[{ Key := "To", Value := "x" },
          { Key := "To", Value := "a@x.org,, b@y.org" }]⟩⟩⟩
        { running := none, sendMail := none, final := none }).trace).map (fun a => a.to)
      = [["a@x.org", "", " b@y.org"]] ∧
    Split "" ',' = [""] :=
  ⟨((recipients_are_split
      [{ Key := "To", Value := "x" }, { Key := "To", Value := "a@x.org,, b@y.org" }]
      ⟨"cfg", ⟨"e1"⟩, ⟨"s1", ⟨[{ Key := "To", Value := "x" },
        { Key := "To", Value := "a@x.org,, b@y.org" }]⟩⟩⟩
      ⟨"e1"⟩ "s1" ⟨"a1", [{ Key := "To", Value := "x" },
        { Key := "To", Value := "a@x.org,, b@y.org" }]⟩
      { running := none, sendMail := none, final := none } rfl rfl rfl).1
      "a@x.org,, b@y.org" (by decide)).1.trans (by decide),
    by decide⟩

/-- C7: last occurrence wins, unknown keys are ignored, missing keys default.
Let `F`, `PW`, `H`, `M` be the values of the last "From", "Password",
"SmtpHost" and "Message" entries (the empty string where there is none) and
`P` what `Atoi` gives for the last "SmtpPort" value (0 where there is none).
Then these are the values the loop leaves in its variables and the values
that `ExecuteTask` and `Execute` give to `SendMail`; and an entry whose key is
none of the six recognised keys can be inserted or removed anywhere without
changing the run. -/
theorem extraction_last_wins (params : List Params) (F PW H M : String) (P : Int)
    (hF : F = (lastValue "From" params).getD "")
    (hPW : PW = (lastValue "Password" params).getD "")
    (hH : H = (lastValue "SmtpHost" params).getD "")
    (hM : M = (lastValue "Message" params).getD "")
    (hP : P = ((lastValue "SmtpPort" params).map fun s => (Atoi s).1).getD 0) :
    ((extract params).from = F ∧ (extract params).password = PW ∧
      (extract params).smtpHost = H ∧ (extract params).message = M ∧
      (extract params).smtpPort = P) ∧
    (∀ (request : Plugin.ExecuteTaskRequest) (ext : External),
      request.Step.Action.Params = params → ext.running = none →
      Plugin.sendMails (Plugin.ExecuteTask request ext).trace =
        [⟨H ++ ":" ++ Itoa P, ⟨"", F, PW, H ++ ":" ++ Itoa P⟩, F, (extract params).to, M⟩]) ∧
    (∀ (execution : EmailPlugin.Execution) (stepID : String) (action : EmailPlugin.Actions)
      (ext : External), action.Params = params → ext.running = none →
      EmailPlugin.sendMails (EmailPlugin.Execute execution stepID action ext).trace =
        [⟨H ++ ":" ++ Itoa P, ⟨"", F, PW, H ++ ":" ++ Itoa P⟩, F, (extract params).to, M⟩]) ∧
    (∀ (pre post : List Params) (p : Params), p.Key ∉ recognisedKeys →
      extract (pre ++ p :: post) = extract (pre ++ post) ∧
      (∀ (request : Plugin.ExecuteTaskRequest) (ext : External),
        Plugin.ExecuteTask (request.withParams (pre ++ p :: post)) ext =
          Plugin.ExecuteTask (request.withParams (pre ++ post)) ext) ∧
      (∀ (execution : EmailPlugin.Execution) (stepID actionID : String) (ext : External),
        EmailPlugin.Execute execution stepID ⟨actionID, pre ++ p :: post⟩ ext =
          EmailPlugin.Execute execution stepID ⟨actionID, pre ++ post⟩ ext)) := by
  have hvars : (extract params).from = F ∧ (extract params).password = PW ∧
      (extract params).smtpHost = H ∧ (extract params).message = M ∧
      (extract params).smtpPort = P := by
    subst hF hPW hH hM hP
    exact ⟨extract_from params, extract_password params, extract_smtpHost params,
      extract_message params, extract_smtpPort params⟩
  obtain ⟨h1, h2, h3, h4, h5⟩ := hvars
  refine ⟨⟨h1, h2, h3, h4, h5⟩, ?_, ?_, ?_⟩
  · intro request ext hreq hrun
    rw [Plugin.sendMails_ExecuteTask request ext hrun, hreq, h1, h2, h3, h4, h5]
  · intro execution stepID action ext hact hrun
    rw [EmailPlugin.sendMails_Execute execution stepID action ext hrun, hact, h1, h2, h3, h4, h5]
  · intro pre post p hp
    have hx := extract_insert pre post p hp
    refine ⟨hx, ?_, ?_⟩
    · intro request ext
      simp only [Plugin.ExecuteTask, Plugin.ExecuteTaskRequest.withParams, hx]
    · intro execution stepID actionID ext
      simp only [EmailPlugin.Execute, hx]

/-- C7, at params with two "From" entries, a key in another case ("from"), an
unknown key and no "Password": the last "From" wins, the password is empty,
the port is 2525, and the entry "Cc" can be dropped. -/
theorem extraction_last_wins_witness :
    ((extract [{ Key := "From", Value := "old@x.org" }, { Key := "SmtpPort", Value := "2525" },
        { Key := "Cc", Value := "c@x.org" }, { Key := "From", Value := "new@x.org" },
        { Key := "from", Value := "other@x.org" }]).from = "new@x.org" ∧
      (extract [{ Key := "From", Value := "old@x.org" }, { Key := "SmtpPort", Value := "2525" },
        { Key := "Cc", Value := "c@x.org" }, { Key := "From", Value := "new@x.org" },
        { Key := "from", Value := "other@x.org" }]).password = "" ∧
      (extract [{ Key := "From", Value := "old@x.org" }, { Key := "SmtpPort", Value := "2525" },
        { Key := "Cc", Value := "c@x.org" }, { Key := "From", Value := "new@x.org" },
        { Key := "from", Value := "other@x.org" }]).smtpHost = "" ∧
      (extract [{ Key := "From", Value := "old@x.org" }, { Key := "SmtpPort", Value := "2525" },
        { Key := "Cc", Value := "c@x.org" }, { Key := "From", Value := "new@x.org" },
        { Key := "from", Value := "other@x.org" }]).message = "" ∧
      (extract [{ Key := "From", Value := "old@x.org" }, { Key := "SmtpPort", Value := "2525" },
        { Key := "Cc", Value := "c@x.org" }, { Key := "From", Value := "new@x.org" },
        { Key := "from", Value := "other@x.org" }]).smtpPort = 2525) ∧
    extract ([{ Key := "From", Value := "old@x.org" }, { Key := "SmtpPort", Value := "2525" }] ++
        { Key := "Cc", Value := "c@x.org" } :: [{ Key := "From", Value := "new@x.org" }]) =
      extract ([{ Key := "From", Value := "old@x.org" }, { Key := "SmtpPort", Value := "2525" }] ++
        [{ Key := "From", Value := "new@x.org" }]) :=
  ⟨(extraction_last_wins
      [{ Key := "From", Value := "old@x.org" }, { Key := "SmtpPort", Value := "2525" },
        { Key := "Cc", Value := "c@x.org" }, { Key := "From", Value := "new@x.org" },
        { Key := "from", Value := "other@x.org" }]
      "new@x.org" "" "" "" 2525 (by decide) (by decide) (by decide) (by decide) (by decide)).1,
    ((extraction_last_wins [] "" "" "" "" 0 rfl rfl rfl rfl rfl).2.2.2
      [{ Key := "From", Value := "old@x.org" }, { Key := "SmtpPort", Value := "2525" }]
      [{ Key := "From", Value := "new@x.org" }]
      { Key := "Cc", Value := "c@x.org" } (by decide)).1⟩

/-- C8: the host given to `smtp.PlainAuth` is the whole address given to
`smtp.SendMail`, `smtpHost ++ ":" ++ Itoa(smtpPort)`, and so it is never the
bare `smtpHost`; in `ExecuteTask` and in `Execute`, at every `SendMail` call. -/
theorem plainAuth_host_is_address (request : Plugin.ExecuteTaskRequest)
    (execution : EmailPlugin.Execution) (stepID : String) (action : EmailPlugin.Actions)
    (ext : External) :
    (∀ args ∈ Plugin.sendMails (Plugin.ExecuteTask request ext).trace,
      args.a.host = (extract request.Step.Action.Params).smtpHost ++ ":" ++
        Itoa (extract request.Step.Action.Params).smtpPort ∧
      args.a.host = args.addr ∧
      args.a.host ≠ (extract request.Step.Action.Params).smtpHost) ∧
    (∀ args ∈ EmailPlugin.sendMails (EmailPlugin.Execute execution stepID action ext).trace,
      args.a.host = (extract action.Params).smtpHost ++ ":" ++
        Itoa (extract action.Params).smtpPort ∧
      args.a.host = args.addr ∧
      args.a.host ≠ (extract action.Params).smtpHost) := by
  by_cases hrun : ext.running = none
  · rw [Plugin.sendMails_ExecuteTask request ext hrun,
      EmailPlugin.sendMails_Execute execution stepID action ext hrun]
    constructor <;>
    · intro args hargs
      rw [List.mem_singleton] at hargs
      subst hargs
      exact ⟨rfl, rfl, address_ne_host _ _⟩
  · obtain ⟨h1, h2⟩ := sendMails_of_running_error request execution stepID action ext hrun
    rw [h1, h2]
    simp

/-- C8, at the declared defaults: `PlainAuth` is given "smtp.mail.com:587",
which is the address and not the host "smtp.mail.com". -/
theorem plainAuth_host_is_address_witness :
    (⟨"smtp.mail.com:587", ⟨"", "from@mail.com", "***", "smtp.mail.com:587"⟩,
        "from@mail.com", ["to@mail.com"], "Email message"⟩ : SendMailArgs).a.host
      ≠ (extract [{ Key := "From", Value := "from@mail.com" },
          { Key := "Password", Value := "***" }, { Key := "To", Value := "to@mail.com" },
          { Key := "SmtpHost", Value := "smtp.mail.com" },
          { Key := "SmtpPort", Value := "587" },
          { Key := "Message", Value := "Email message" }]).smtpHost :=
  ((plainAuth_host_is_address
      ⟨"cfg", ⟨"e1"⟩, ⟨"s1", ⟨[{ Key := "From", Value := "from@mail.com" },
        { Key := "Password", Value := "***" }, { Key := "To", Value := "to@mail.com" },
        { Key := "SmtpHost", Value := "smtp.mail.com" },
        { Key := "SmtpPort", Value := "587" },
        { Key := "Message", Value := "Email message" }]⟩⟩⟩
      ⟨"e1"⟩ "s1" ⟨"a1", []⟩
      { running := none, sendMail := none, final := none }).1
    ⟨"smtp.mail.com:587", ⟨"", "from@mail.com", "***", "smtp.mail.com:587"⟩,
      "from@mail.com", ["to@mail.com"], "Email message"⟩ (by decide)).2.2

/-- C9: the params declared to the host are the params consumed. `Info` and
`Details` each declare six pairwise distinct keys, and a key is declared
exactly when the extraction loop consumes it. -/
theorem declared_params_are_consumed :
    ((Plugin.Info.1.Actions.Params.map fun p => p.Key).length = 6 ∧
      (Plugin.Info.1.Actions.Params.map fun p => p.Key).Nodup ∧
      ∀ K, K ∈ (Plugin.Info.1.Actions.Params.map fun p => p.Key) ↔ Consumes K) ∧
    ((EmailPlugin.Details.Action.Params.map fun p => p.Key).length = 6 ∧
      (EmailPlugin.Details.Action.Params.map fun p => p.Key).Nodup ∧
      ∀ K, K ∈ (EmailPlugin.Details.Action.Params.map fun p => p.Key) ↔ Consumes K) ∧
    (Plugin.Info.1.Actions.Params.map fun p => p.Key) = recognisedKeys ∧
    (EmailPlugin.Details.Action.Params.map fun p => p.Key) = recognisedKeys := by
  have hI : (Plugin.Info.1.Actions.Params.map fun p => p.Key) = recognisedKeys := by decide
  have hD : (EmailPlugin.Details.Action.Params.map fun p => p.Key) = recognisedKeys := by
    decide
  have hcons : ∀ K, K ∈ recognisedKeys ↔ Consumes K := by
    intro K
    constructor
    · intro hK
      simp only [recognisedKeys, List.mem_cons, List.mem_singleton, List.mem_nil_iff,
        or_false] at hK
      rcases hK with rfl | rfl | rfl | rfl | rfl | rfl
      · exact ⟨Vars.init, { Key := "From", Value := "x" }, rfl, by decide⟩
      · exact ⟨Vars.init, { Key := "Password", Value := "x" }, rfl, by decide⟩
      · exact ⟨Vars.init, { Key := "To", Value := "x" }, rfl, by decide⟩
      · exact ⟨Vars.init, { Key := "SmtpHost", Value := "x" }, rfl, by decide⟩
      · exact ⟨Vars.init, { Key := "SmtpPort", Value := "1" }, rfl, by decide⟩
      · exact ⟨Vars.init, { Key := "Message", Value := "x" }, rfl, by decide⟩
    · rintro ⟨v, p, rfl, hne⟩
      by_contra hK
      exact hne (Vars.step_of_not_mem v p hK)
  have hlen : recognisedKeys.length = 6 := rfl
  have hnodup : recognisedKeys.Nodup := by decide
  rw [hI, hD]
  exact ⟨⟨hlen, hnodup, hcons⟩, ⟨hlen, hnodup, hcons⟩, rfl, rfl⟩

end RpMail
